import Mathlib

/-!
Verification development for the FastX voice-generator front-end.

The repository's operations are shallowly embedded:
* JS numbers that hold sample data are modelled as rationals (`ℚ`);
* byte buffers are `List Nat` with every entry below 256;
* the asynchronous network call is an explicit `ApiOutcome` input;
* React state updates are sequential record updates on `AppState`.
-/

namespace FastXVoice

/-- A decoded Web-Audio buffer: channel count, sample rate, frames per
channel, and per-channel float sample data (floats as rationals). -/
structure AudioBuffer where
  numberOfChannels : Nat
  sampleRate : Nat
  frameCount : Nat
  channelData : List (List ℚ)
deriving Repr, DecidableEq

/-- Well-formedness of a decoded buffer: one data list per channel and
every channel holds exactly `frameCount` samples. -/
def AudioBuffer.wf (b : AudioBuffer) : Prop :=
  b.channelData.length = b.numberOfChannels ∧
  ∀ ch ∈ b.channelData, ch.length = b.frameCount

/-- Little-endian encoding of a 16-bit unsigned value. -/
def u16le (n : Nat) : List Nat := [n % 256, n / 256 % 256]

/-- Little-endian encoding of a 32-bit unsigned value. -/
def u32le (n : Nat) : List Nat :=
  [n % 256, n / 256 % 256, n / 65536 % 256, n / 16777216 % 256]

/-- Two's-complement little-endian encoding of a signed 16-bit value. -/
def i16le (i : Int) : List Nat := u16le (i % 65536).toNat

/-- Modelled from the spec (the encoder's source file `audioUtils.ts` is not
in the repository snapshot, only its callers): "converts each float sample
in [-1,1] to a 16-bit little-endian signed integer (clamped)".  The scale
follows the standard WAV float-to-PCM16 conversion (`s < 0 ? s * 0x8000 :
s * 0x7FFF`), with truncation toward zero as `DataView.setInt16` performs. -/
def floatTo16 (s : ℚ) : Int :=
  let c := max (-1 : ℚ) (min 1 s)
  if c < 0 then Int.ceil (c * 32768) else Int.floor (c * 32767)

/-- Modelled from the spec: "interleaves per-channel samples" — frame by
frame, channel by channel. -/
def interleave (b : AudioBuffer) : List ℚ :=
  (List.range b.frameCount).flatMap
    (fun i => b.channelData.map (fun ch => ch.getD i 0))

/-- Modelled from the spec: "a standard 44-byte RIFF/WAVE header (format
tag 1 = PCM, given channel count, sample rate, 16-bit depth)" — the fixed
RIFF/WAVE PCM layout: RIFF chunk, fmt chunk of size 16, data chunk. -/
def wavHeader (b : AudioBuffer) : List Nat :=
  let dataLen := b.frameCount * b.numberOfChannels * 2
  [82, 73, 70, 70] ++ u32le (36 + dataLen) ++ [87, 65, 86, 69] ++
  [102, 109, 116, 32] ++ u32le 16 ++ u16le 1 ++ u16le b.numberOfChannels ++
  u32le b.sampleRate ++ u32le (b.sampleRate * b.numberOfChannels * 2) ++
  u16le (b.numberOfChannels * 2) ++ u16le 16 ++
  [100, 97, 116, 97] ++ u32le dataLen

/-- Modelled from the spec: the WAV encoder `audioBufferToWav` — the
44-byte header followed by the interleaved samples, each written as a
16-bit little-endian signed integer, and nothing else. -/
def audioBufferToWav (b : AudioBuffer) : List Nat :=
  wavHeader b ++ (interleave b).flatMap (fun s => i16le (floatTo16 s))

/-- Read back a 16-bit little-endian field of a byte string. -/
def readU16le (bytes : List Nat) (off : Nat) : Nat :=
  bytes.getD off 0 + 256 * bytes.getD (off + 1) 0

/-- Read back a 32-bit little-endian field of a byte string. -/
def readU32le (bytes : List Nat) (off : Nat) : Nat :=
  bytes.getD off 0 + 256 * bytes.getD (off + 1) 0 +
  65536 * bytes.getD (off + 2) 0 + 16777216 * bytes.getD (off + 3) 0

theorem i16le_length (i : Int) : (i16le i).length = 2 := rfl

theorem flatMap_i16le_length (l : List ℚ) :
    (l.flatMap (fun s => i16le (floatTo16 s))).length = 2 * l.length := by
  induction l with
  | nil => rfl
  | cons x xs ih =>
      rw [List.flatMap_cons, List.length_append, i16le_length, ih,
        List.length_cons]
      ring

theorem interleave_length (b : AudioBuffer) (h : b.wf) :
    (interleave b).length = b.frameCount * b.numberOfChannels := by
  unfold interleave
  induction b.frameCount with
  | zero => simp
  | succ n ih =>
      rw [List.range_succ, List.flatMap_append, List.length_append, ih,
        List.flatMap_cons, List.flatMap_nil, List.append_nil,
        List.length_map, h.1, Nat.succ_mul]

theorem wavHeader_length (b : AudioBuffer) : (wavHeader b).length = 44 := by
  simp [wavHeader, u16le, u32le]

theorem wav_getD_header (b : AudioBuffer) (n : Nat) (h : n < 44) :
    (audioBufferToWav b).getD n 0 = (wavHeader b).getD n 0 := by
  rw [audioBufferToWav]
  exact List.getD_append _ _ _ _ (by rw [wavHeader_length b]; exact h)

theorem wavHeader_getD_20 (b : AudioBuffer) :
    (wavHeader b).getD 20 0 = 1 := rfl

theorem wavHeader_getD_21 (b : AudioBuffer) :
    (wavHeader b).getD 21 0 = 0 := rfl

theorem wavHeader_getD_22 (b : AudioBuffer) :
    (wavHeader b).getD 22 0 = b.numberOfChannels % 256 := rfl

theorem wavHeader_getD_23 (b : AudioBuffer) :
    (wavHeader b).getD 23 0 = b.numberOfChannels / 256 % 256 := rfl

theorem wavHeader_getD_24 (b : AudioBuffer) :
    (wavHeader b).getD 24 0 = b.sampleRate % 256 := rfl

theorem wavHeader_getD_25 (b : AudioBuffer) :
    (wavHeader b).getD 25 0 = b.sampleRate / 256 % 256 := rfl

theorem wavHeader_getD_26 (b : AudioBuffer) :
    (wavHeader b).getD 26 0 = b.sampleRate / 65536 % 256 := rfl

theorem wavHeader_getD_27 (b : AudioBuffer) :
    (wavHeader b).getD 27 0 = b.sampleRate / 16777216 % 256 := rfl

theorem wavHeader_getD_34 (b : AudioBuffer) :
    (wavHeader b).getD 34 0 = 16 := rfl

theorem wavHeader_getD_35 (b : AudioBuffer) :
    (wavHeader b).getD 35 0 = 0 := rfl

theorem wav_bytes_spec (b : AudioBuffer) (hwf : b.wf)
    (hc : b.numberOfChannels < 65536) (hr : b.sampleRate < 4294967296) :
    (audioBufferToWav b).length = 44 + b.frameCount * b.numberOfChannels * 2 ∧
    readU16le (audioBufferToWav b) 20 = 1 ∧
    readU16le (audioBufferToWav b) 22 = b.numberOfChannels ∧
    readU32le (audioBufferToWav b) 24 = b.sampleRate ∧
    readU16le (audioBufferToWav b) 34 = 16 := by
  refine ⟨?_, ?_, ?_, ?_, ?_⟩
  · rw [audioBufferToWav, List.length_append, wavHeader_length,
      flatMap_i16le_length, interleave_length b hwf]
    ring
  · rw [readU16le, wav_getD_header b 20 (by omega), wav_getD_header b 21 (by omega),
      wavHeader_getD_20, wavHeader_getD_21]
  · rw [readU16le, wav_getD_header b 22 (by omega), wav_getD_header b 23 (by omega),
      wavHeader_getD_22, wavHeader_getD_23]
    omega
  · rw [readU32le, wav_getD_header b 24 (by omega), wav_getD_header b 25 (by omega),
      wav_getD_header b 26 (by omega), wav_getD_header b 27 (by omega),
      wavHeader_getD_24, wavHeader_getD_25, wavHeader_getD_26, wavHeader_getD_27]
    omega
  · rw [readU16le, wav_getD_header b 34 (by omega), wav_getD_header b 35 (by omega),
      wavHeader_getD_34, wavHeader_getD_35]

/-- C1: for a buffer with `s` frames per channel and `c` channels, the
emitted WAV byte string has length exactly `44 + s*c*2`: a 44-byte
RIFF/WAVE header declaring PCM format tag 1, the buffer's channel count,
the buffer's sample rate and a 16-bit depth, followed by the interleaved
16-bit samples and nothing else. -/
theorem audioBufferToWav_length_and_header (b : AudioBuffer) (hwf : b.wf)
    (hc : b.numberOfChannels < 65536) (hr : b.sampleRate < 4294967296) :
    (audioBufferToWav b).length = 44 + b.frameCount * b.numberOfChannels * 2 ∧
    readU16le (audioBufferToWav b) 20 = 1 ∧
    readU16le (audioBufferToWav b) 22 = b.numberOfChannels ∧
    readU32le (audioBufferToWav b) 24 = b.sampleRate ∧
    readU16le (audioBufferToWav b) 34 = 16 :=
  wav_bytes_spec b hwf hc hr

/-- A concrete stereo buffer with 3 frames per channel exercising C1:
the encoder emits 44 + 3*2*2 = 56 bytes with the declared header fields. -/
theorem audioBufferToWav_length_and_header_witness :
    (audioBufferToWav ⟨2, 44100, 3, [[0, 1/2, -1/2], [1, -1, 1/4]]⟩).length =
      44 + 3 * 2 * 2 ∧
    readU16le (audioBufferToWav ⟨2, 44100, 3, [[0, 1/2, -1/2], [1, -1, 1/4]]⟩) 20 = 1 ∧
    readU16le (audioBufferToWav ⟨2, 44100, 3, [[0, 1/2, -1/2], [1, -1, 1/4]]⟩) 22 = 2 ∧
    readU32le (audioBufferToWav ⟨2, 44100, 3, [[0, 1/2, -1/2], [1, -1, 1/4]]⟩) 24 = 44100 ∧
    readU16le (audioBufferToWav ⟨2, 44100, 3, [[0, 1/2, -1/2], [1, -1, 1/4]]⟩) 34 = 16 :=
  audioBufferToWav_length_and_header ⟨2, 44100, 3, [[0, 1/2, -1/2], [1, -1, 1/4]]⟩
    ⟨rfl, by intro ch hch; simp at hch; rcases hch with h | h <;> simp [h]⟩
    (by decide) (by decide)

/-! ### RadarVisualizer (`src/components/RadarVisualizer.tsx`)

The per-frame `draw` routine is embedded as a pure function of the frame
environment (the `isPlaying` prop and whether an analyser node is wired,
both fixed for the lifetime of one effect) and the per-frame inputs: the
current wall-clock milliseconds and the frequency snapshot the analyser
fills into `dataArray`.  `Math.sin`/`Math.cos` and `Math.PI` are abstract
parameters `msin`, `mcos`, `piv` so the geometry stays symbolic. -/

/-- The fixed per-effect configuration of the visualizer. -/
structure FrameEnv where
  isPlaying : Bool
  analyserPresent : Bool
deriving Repr, DecidableEq

/-- One canvas drawing command issued by `draw`, with its numeric
arguments. -/
inductive DrawCmd where
  | clearRect (x y w h : ℚ)
  | glowArc (cx cy r : ℚ)
  | innerCircle (cx cy r : ℚ)
  | bar (x1 y1 x2 y2 : ℚ)
  | particle (x y : ℚ)
deriving Repr, DecidableEq

/-- `// Calculate average volume for the "thump" effect`: the sum of the
lowest `floor(n/4)` bins divided by that count (rational division; the
snapshot always has 128 bins in the app, so the count is positive). -/
def bassAverage (snapshot : List Nat) : ℚ :=
  let bassCount := snapshot.length / 4
  (((List.range bassCount).map (fun i => (snapshot.getD i 0 : ℚ))).sum) /
    (bassCount : ℚ)

/-- `pulseIntensity`: `average / 3` while playing, else the breathing term
`Math.sin(Date.now() / 1500) * 5 + 5` (the sine value passed in). -/
def pulseIntensity (isPlaying : Bool) (average sinVal : ℚ) : ℚ :=
  if isPlaying then average / 3 else sinVal * 5 + 5

/-- `visualRadius = baseRadius + pulseIntensity` with `baseRadius = 70`. -/
def visualRadius (isPlaying : Bool) (average sinVal : ℚ) : ℚ :=
  70 + pulseIntensity isPlaying average sinVal

/-- The spectrum-bar height: `Math.max(4, (value / 255) * 100)`. -/
def barHeightOf (value : Nat) : ℚ :=
  max 4 ((value : ℚ) / 255 * 100)

/-- The spectrum-bar angle: `(i / bars) * Math.PI * 2 - Math.PI / 2` with
`bars = 64`. -/
def barAngle (piv : ℚ) (i : Nat) : ℚ :=
  ((i : ℚ) / 64) * piv * 2 - piv / 2

/-- One frame of `draw` on the 400×400 canvas: clear, center glow, inner
circle, then either the 64 spectrum bars (playing with an analyser) or the
8 idle particles.  `now` is `Date.now()` in milliseconds and `snapshot`
the byte array the analyser would fill. -/
def renderFrame (msin mcos : ℚ → ℚ) (piv : ℚ) (env : FrameEnv)
    (now : ℚ) (snapshot : List Nat) : List DrawCmd :=
  let dataArray : List Nat := if env.analyserPresent then snapshot else []
  let average : ℚ := if env.analyserPresent then bassAverage snapshot else 0
  let r := visualRadius env.isPlaying average (msin (now / 1500))
  let headCmds : List DrawCmd :=
    [.clearRect 0 0 400 400, .glowArc 200 200 (r * (3/2)),
     .innerCircle 200 200 (r - 5)]
  let tailCmds : List DrawCmd :=
    if env.analyserPresent && env.isPlaying then
      let step := dataArray.length / 64
      (List.range 64).map (fun i =>
        let value := dataArray.getD (i * step) 0
        let barHeight := barHeightOf value
        let angle := barAngle piv i
        .bar (200 + mcos angle * (r + 10)) (200 + msin angle * (r + 10))
          (200 + mcos angle * (r + 10 + barHeight))
          (200 + msin angle * (r + 10 + barHeight)))
    else
      (List.range 8).map (fun i =>
        let angle := now / 1000 + (i : ℚ) * (piv * 2) / 8
        .particle (200 + mcos angle * r) (200 + msin angle * r))
  headCmds ++ tailCmds

/-- The animation loop: each `requestAnimationFrame` callback renders one
frame from that frame's inputs and schedules the next; written as explicit
recursion over the stream of per-frame inputs to mirror the loop. -/
def renderLoop (msin mcos : ℚ → ℚ) (piv : ℚ) (env : FrameEnv) :
    List (ℚ × List Nat) → List (List DrawCmd)
  | [] => []
  | (now, snapshot) :: rest =>
      renderFrame msin mcos piv env now snapshot ::
        renderLoop msin mcos piv env rest

/-- The spec's reading of the bass proxy: the arithmetic mean of the lowest
quarter of the bins — the entries at indices `0 .. floor(n/4) - 1` (the
first `floor(n/4)` entries) divided by `floor(n/4)`. -/
def specBassMean (s : List Nat) : ℚ :=
  (((s.take (s.length / 4)).map (fun v : Nat => (v : ℚ))).sum) /
    ((s.length / 4 : Nat) : ℚ)

theorem range_getD_sum (s : List Nat) (k : Nat) (hk : k ≤ s.length) :
    ((List.range k).map (fun i => (s.getD i 0 : ℚ))).sum =
    ((s.take k).map (fun v : Nat => (v : ℚ))).sum := by
  induction k with
  | zero => simp
  | succ n ih =>
      have hn : n < s.length := by omega
      rw [List.range_succ, List.map_append, List.sum_append,
        List.take_succ, List.map_append, List.sum_append, ih (by omega)]
      simp [List.getD_eq_getElem?_getD, List.getElem?_eq_getElem hn]

/-- C4: the bass proxy computed each frame equals the arithmetic mean of
the lowest quarter of the bins — the sum of the entries at indices
`0 .. floor(n/4) - 1` divided by `floor(n/4)`. -/
theorem bassAverage_eq_specBassMean (s : List Nat) :
    bassAverage s = specBassMean s := by
  simp only [bassAverage, specBassMean]
  rw [range_getD_sum s (s.length / 4) (Nat.div_le_self _ _)]

/-- The length-mapping part of C3 is false as stated: at byte magnitude 0
the code draws a bar of length `max(4, 0) = 4` pixels, not `(0/255)*100 =
0` pixels. -/
theorem barHeight_not_linear : barHeightOf 0 ≠ (0 : ℚ) / 255 * 100 := by
  norm_num [barHeightOf]

/-- C3 (amended): while playing with an analyser wired, each frame draws
exactly 64 bars after the three background commands; the i-th bar extends
by `max(4, (v/255)*100)` pixels along the direction of angle
`2πi/64 − π/2`, where `v` is the byte sampled for that bar, and
consecutive bar angles differ by the constant step `2π/64`. -/
theorem spectrum_bars_spec (msin mcos : ℚ → ℚ) (piv now : ℚ)
    (snap : List Nat) :
    ((renderFrame msin mcos piv ⟨true, true⟩ now snap).drop 3).length = 64 ∧
    ∀ i, i < 64 →
      ∃ x1 y1 x2 y2,
        ((renderFrame msin mcos piv ⟨true, true⟩ now snap).drop 3).getD i
            (.particle 0 0) = .bar x1 y1 x2 y2 ∧
        x2 - x1 = mcos (barAngle piv i) *
          barHeightOf (snap.getD (i * (snap.length / 64)) 0) ∧
        y2 - y1 = msin (barAngle piv i) *
          barHeightOf (snap.getD (i * (snap.length / 64)) 0) ∧
        barHeightOf (snap.getD (i * (snap.length / 64)) 0) =
          max 4 ((snap.getD (i * (snap.length / 64)) 0 : ℚ) / 255 * 100) ∧
        barAngle piv (i + 1) - barAngle piv i = piv * 2 / 64 := by
  have hdrop : (renderFrame msin mcos piv ⟨true, true⟩ now snap).drop 3 =
      (List.range 64).map (fun i =>
        let value := snap.getD (i * (snap.length / 64)) 0
        let barHeight := barHeightOf value
        let angle := barAngle piv i
        let r := visualRadius true (bassAverage snap) (msin (now / 1500))
        DrawCmd.bar (200 + mcos angle * (r + 10)) (200 + msin angle * (r + 10))
          (200 + mcos angle * (r + 10 + barHeight))
          (200 + msin angle * (r + 10 + barHeight))) := rfl
  constructor
  · rw [hdrop, List.length_map, List.length_range]
  · intro i hi
    have hbar : ((renderFrame msin mcos piv ⟨true, true⟩ now snap).drop 3).getD
        i (.particle 0 0) =
        DrawCmd.bar
          (200 + mcos (barAngle piv i) *
            (visualRadius true (bassAverage snap) (msin (now / 1500)) + 10))
          (200 + msin (barAngle piv i) *
            (visualRadius true (bassAverage snap) (msin (now / 1500)) + 10))
          (200 + mcos (barAngle piv i) *
            (visualRadius true (bassAverage snap) (msin (now / 1500)) + 10 +
              barHeightOf (snap.getD (i * (snap.length / 64)) 0)))
          (200 + msin (barAngle piv i) *
            (visualRadius true (bassAverage snap) (msin (now / 1500)) + 10 +
              barHeightOf (snap.getD (i * (snap.length / 64)) 0))) := by
      rw [hdrop, List.getD_eq_getElem?_getD, List.getElem?_map,
        List.getElem?_range hi]
      rfl
    exact ⟨_, _, _, _, hbar, by ring, by ring, rfl, by
      unfold barAngle
      push_cast
      ring⟩

/-- A concrete check of the amended C3 at bar index 0 of a 4-bin
snapshot. -/
theorem spectrum_bars_spec_witness :
    (((renderFrame (fun _ => (0 : ℚ)) (fun _ => (0 : ℚ)) 3 ⟨true, true⟩ 7
        [10, 20, 30, 40]).drop 3).length = 64) ∧
    (0 : Nat) < 64 ∧
    (∃ x1 y1 x2 y2,
      ((renderFrame (fun _ => (0 : ℚ)) (fun _ => (0 : ℚ)) 3 ⟨true, true⟩ 7
          [10, 20, 30, 40]).drop 3).getD 0 (.particle 0 0) =
        .bar x1 y1 x2 y2 ∧
      x2 - x1 = (fun _ => (0 : ℚ)) (barAngle 3 0) * barHeightOf 10 ∧
      y2 - y1 = (fun _ => (0 : ℚ)) (barAngle 3 0) * barHeightOf 10 ∧
      barHeightOf 10 = max 4 (((10 : Nat) : ℚ) / 255 * 100) ∧
      barAngle 3 (0 + 1) - barAngle 3 0 = 3 * 2 / 64) :=
  ⟨(spectrum_bars_spec (fun _ => 0) (fun _ => 0) 3 7 [10, 20, 30, 40]).1,
   by norm_num,
   (spectrum_bars_spec (fun _ => 0) (fun _ => 0) 3 7 [10, 20, 30, 40]).2 0
     (by norm_num)⟩

/-- C5: the per-frame pulse radius is the fixed base 70 plus an intensity
term — the bass average divided by 3 while playing (independent of the
sine-of-clock value, so whole playing frames do not depend on the clock),
and the breathing value `sin(now/1500)*5 + 5`, which lies in `[0, 10]`,
while idle. -/
theorem pulse_radius_spec (msin mcos : ℚ → ℚ) (piv avg s : ℚ)
    (hs1 : -1 ≤ s) (hs2 : s ≤ 1) :
    visualRadius true avg s = 70 + avg / 3 ∧
    (∀ s1 s2 : ℚ, visualRadius true avg s1 = visualRadius true avg s2) ∧
    pulseIntensity false avg s = s * 5 + 5 ∧
    0 ≤ pulseIntensity false avg s ∧ pulseIntensity false avg s ≤ 10 ∧
    (∀ now1 now2 : ℚ, ∀ snap : List Nat,
      renderFrame msin mcos piv ⟨true, true⟩ now1 snap =
        renderFrame msin mcos piv ⟨true, true⟩ now2 snap) := by
  refine ⟨rfl, fun s1 s2 => rfl, rfl, ?_, ?_, fun now1 now2 snap => rfl⟩
  · simp only [pulseIntensity, if_neg (by simp : ¬(false = true))]
    linarith
  · simp only [pulseIntensity, if_neg (by simp : ¬(false = true))]
    linarith

/-- C5 exercised at the concrete sine value 1/2 and bass average 3: the
playing radius is 71, insensitive to the clock term, and the idle
breathing intensity 15/2 lies in `[0, 10]`. -/
theorem pulse_radius_spec_witness :
    visualRadius true 3 (1/2) = 70 + 3 / 3 ∧
    visualRadius true 3 (1/2) = visualRadius true 3 (-1) ∧
    pulseIntensity false 3 (1/2) = (1/2) * 5 + 5 ∧
    0 ≤ pulseIntensity false 3 (1/2) ∧ pulseIntensity false 3 (1/2) ≤ 10 ∧
    renderFrame (fun _ => 0) (fun _ => 0) 3 ⟨true, true⟩ 7 [1, 2, 3, 4] =
      renderFrame (fun _ => 0) (fun _ => 0) 3 ⟨true, true⟩ 8 [1, 2, 3, 4] := by
  obtain ⟨h1, h2, h3, h4, h5, h6⟩ :=
    pulse_radius_spec (fun _ => 0) (fun _ => 0) 3 3 (1/2)
      (by norm_num) (by norm_num)
  exact ⟨h1, h2 (1/2) (-1), h3, h4, h5, h6 7 8 [1, 2, 3, 4]⟩

theorem renderLoop_getElem (msin mcos : ℚ → ℚ) (piv : ℚ) (env : FrameEnv) :
    ∀ (xs : List (ℚ × List Nat)) (i : Nat),
      (renderLoop msin mcos piv env xs)[i]? =
        xs[i]?.map (fun p => renderFrame msin mcos piv env p.1 p.2) := by
  intro xs
  induction xs with
  | nil => intro i; simp [renderLoop]
  | cons p rest ih =>
      intro i
      cases i with
      | zero => simp [renderLoop]
      | succ n => simp [renderLoop, ih n]

/-- C8: the frame renderer is stateless and deterministic — across any two
runs of the animation loop, frames with the same per-frame input (clock
milliseconds and frequency snapshot) render identically; no earlier frame
of either run influences the result. -/
theorem renderLoop_stateless (msin mcos : ℚ → ℚ) (piv : ℚ) (env : FrameEnv)
    (xs ys : List (ℚ × List Nat)) (i : Nat) (h : xs[i]? = ys[i]?) :
    (renderLoop msin mcos piv env xs)[i]? =
      (renderLoop msin mcos piv env ys)[i]? := by
  rw [renderLoop_getElem, renderLoop_getElem, h]

/-- C8 exercised on two concrete runs with different histories that agree
on the input of frame 1. -/
theorem renderLoop_stateless_witness :
    ([((0 : ℚ), [1, 2]), (5, [3])] : List (ℚ × List Nat))[1]? =
      ([(9, [7, 7, 7]), (5, [3]), (11, [])] : List (ℚ × List Nat))[1]? ∧
    (renderLoop (fun _ => 0) (fun _ => 0) 3 ⟨true, true⟩
        [((0 : ℚ), [1, 2]), (5, [3])])[1]? =
      (renderLoop (fun _ => 0) (fun _ => 0) 3 ⟨true, true⟩
        [(9, [7, 7, 7]), (5, [3]), (11, [])])[1]? :=
  ⟨rfl, renderLoop_stateless (fun _ => 0) (fun _ => 0) 3 ⟨true, true⟩
    [(0, [1, 2]), (5, [3])] [(9, [7, 7, 7]), (5, [3]), (11, [])] 1 rfl⟩

/-! ### geminiService (`src/services/geminiService.ts`)

The network call is embedded as an explicit outcome: either the request
itself failed, or it responded with an optional base64 audio payload (the
payload is carried already base64-decoded, as the byte list
`decodeBase64` would produce). -/

/-- The outcome of the `ai.models.generateContent` request. -/
inductive ApiOutcome where
  | requestFailed (msg : String)
  | responded (base64Audio : Option (List Nat))
deriving Repr, DecidableEq

/-- Modelled from the spec (the decoder's source file `audioUtils.ts` is
not in the repository snapshot, only its caller): `decodeAudioData` turns
raw little-endian PCM16 bytes into a decoded buffer with the given sample
rate and channel count, samples scaled to floats. -/
def decodeAudioData (raw : List Nat) (sampleRate numChannels : Nat) :
    AudioBuffer :=
  let nFrames := raw.length / (2 * numChannels)
  { numberOfChannels := numChannels
    sampleRate := sampleRate
    frameCount := nFrames
    channelData := (List.range numChannels).map (fun ch =>
      (List.range nFrames).map (fun i =>
        let off := (i * numChannels + ch) * 2
        let v : Int := raw.getD off 0 + 256 * raw.getD (off + 1) 0
        let s : Int := if v < 32768 then v else v - 65536
        (s : ℚ) / 32768)) }

/-- `generateSpeech`: throws when the API key is missing; otherwise issues
the request, throws when no audio data comes back, and else decodes the
payload at 24000 Hz mono.  A thrown error propagates through the local
`catch` (which logs and rethrows) as the single error the caller sees. -/
def generateSpeech (text : List Char) (voice apiKey : String)
    (outcome : ApiOutcome) : Except String AudioBuffer :=
  if apiKey = "" then .error "API Key is missing."
  else
    match outcome with
    | .requestFailed msg => .error msg
    | .responded none => .error "No audio data returned from Gemini."
    | .responded (some raw) => .ok (decodeAudioData raw 24000 1)

/-! ### App handlers (`src/App.tsx`)

React state is embedded as a record; each `setX(v)` call is a sequential
record update, each `alert(msg)` appends to `alerts`, each
`console.error` increments `consoleErrors`.  The object URL created for
the download is identified with the WAV byte string it denotes. -/

/-- One voice persona entry of `VOICE_OPTIONS` (display fields omitted). -/
structure VoicePersona where
  id : String
  apiVoice : String
deriving Repr, DecidableEq

def VOICE_OPTIONS : List VoicePersona :=
  [⟨"v_jason", "Puck"⟩, ⟨"v_mike", "Charon"⟩, ⟨"v_henry", "Fenrir"⟩,
   ⟨"v_jerry", "Puck"⟩, ⟨"v_thomas", "Charon"⟩, ⟨"v_james", "Fenrir"⟩]

def MAX_CHARS : Nat := 5000

/-- JS `String.prototype.trim`: the string with whitespace stripped from
both ends (strings are embedded as their character lists). -/
def jsTrim (t : List Char) : List Char :=
  ((t.dropWhile Char.isWhitespace).reverse.dropWhile Char.isWhitespace).reverse

/-- The App component's state, with the observable UI effects recorded. -/
structure AppState where
  text : List Char
  selectedVoiceId : String
  isLoading : Bool
  isPlaying : Bool
  previewVoiceId : Option String
  audioBuffer : Option AudioBuffer
  downloadUrl : Option (List Nat)
  alerts : List String
  consoleErrors : Nat
deriving Repr, DecidableEq

/-- `stopAudio` as it acts on App state: stop/clear the source node is
modelled separately on the audio graph; here it clears the playing and
preview flags. -/
def stopAudioState (s : AppState) : AppState :=
  { s with isPlaying := false, previewVoiceId := none }

/-- `handleGenerate`: the guard returns on blank (trimmed-empty) text; an
over-limit text alerts and returns; otherwise the state is cleared
(loading on, buffer and download URL dropped, playback stopped), the
speech call is awaited, and its success installs the buffer, the WAV
download URL and playback, while its failure alerts; `finally` clears the
loading flag. -/
def handleGenerate (apiKey : String) (outcome : ApiOutcome)
    (s : AppState) : AppState :=
  if jsTrim s.text = [] then s
  else if s.text.length > MAX_CHARS then
    { s with alerts := s.alerts ++
        ["Character limit exceeded. Please reduce to 5000 characters."] }
  else
    match VOICE_OPTIONS.find? (fun v => v.id == s.selectedVoiceId) with
    | none => s
    | some opt =>
        let s1 := stopAudioState
          { s with isLoading := true, audioBuffer := none,
                   downloadUrl := none }
        match generateSpeech s.text opt.apiVoice apiKey outcome with
        | .ok buffer =>
            { s1 with audioBuffer := some buffer,
                      downloadUrl := some (audioBufferToWav buffer),
                      isPlaying := true, isLoading := false }
        | .error _ =>
            { s1 with
                alerts := s1.alerts ++ ["Generation failed. Please try again."],
                isLoading := false }

/-- `handlePreview`: returns when a preview is already pending; otherwise
marks the pending preview, stops current audio, and awaits the speech
call for the short preview text — on success playback starts, on failure
the error is logged to the console and the pending preview is cleared
(no alert). -/
def handlePreview (voice : VoicePersona) (apiKey : String)
    (outcome : ApiOutcome) (s : AppState) : AppState :=
  if s.previewVoiceId.isSome then s
  else
    let s1 := stopAudioState { s with previewVoiceId := some voice.id }
    match generateSpeech ("Hello, I am " ++ voice.id ++ ".").data voice.apiVoice
        apiKey outcome with
    | .ok _ => s1
    | .error _ =>
        { s1 with consoleErrors := s1.consoleErrors + 1,
                  previewVoiceId := none }

/-! ### The audio-graph source-node discipline (`playAudio` / `stopAudio`)

Source nodes are numbered as they are created.  `active` records the
nodes that have been started and not yet stopped; `current` mirrors
`sourceNodeRef.current`. -/

/-- The audio graph state relevant to playback overlap. -/
structure AudioGraph where
  nextId : Nat
  active : List Nat
  current : Option Nat
deriving Repr, DecidableEq

def AudioGraph.init : AudioGraph := ⟨0, [], none⟩

/-- `playAudio`: if a source node is referenced it is stopped first; then
a fresh buffer source is created, started, and becomes the referenced
node. -/
def playAudio (g : AudioGraph) : AudioGraph :=
  let g1 : AudioGraph :=
    match g.current with
    | some id => { g with active := g.active.erase id }
    | none => g
  { nextId := g1.nextId + 1
    active := g1.active ++ [g1.nextId]
    current := some g1.nextId }

/-- `stopAudio`: if a source node is referenced it is stopped and the
reference cleared. -/
def stopAudio (g : AudioGraph) : AudioGraph :=
  match g.current with
  | some id => { g with active := g.active.erase id, current := none }
  | none => g

/-- Every graph operation the App performs is a sequence of these two
primitives: `handleGenerate` and `handlePreview` run `stopAudio` then
(on success) `playAudio`; `handleClear`, unmount and the stop button run
`stopAudio`. -/
inductive AudioEvent where
  | play
  | stop
deriving Repr, DecidableEq

def stepAudio (g : AudioGraph) : AudioEvent → AudioGraph
  | .play => playAudio g
  | .stop => stopAudio g

def runAudio (g : AudioGraph) : List AudioEvent → AudioGraph
  | [] => g
  | e :: es => runAudio (stepAudio g e) es

/-- The last-writer-wins invariant: either no node is active, or exactly
the referenced node is. -/
def AudioGraph.inv (g : AudioGraph) : Prop :=
  g.active = [] ∨ ∃ id, g.active = [id] ∧ g.current = some id

theorem playAudio_inv (g : AudioGraph) (h : g.inv) :
    (playAudio g).inv ∧ (playAudio g).active.length = 1 := by
  rcases h with h | ⟨id, ha, hc⟩
  · cases hcur : g.current <;>
      exact ⟨Or.inr ⟨g.nextId, by simp [playAudio, hcur, h], by
        simp [playAudio, hcur, h]⟩, by simp [playAudio, hcur, h]⟩
  · refine ⟨Or.inr ⟨g.nextId, ?_, ?_⟩, ?_⟩ <;>
      simp [playAudio, hc, ha, List.erase_cons]

theorem stopAudio_inv (g : AudioGraph) (h : g.inv) :
    (stopAudio g).inv ∧ (stopAudio g).active.length ≤ 1 := by
  rcases h with h | ⟨id, ha, hc⟩
  · cases hcur : g.current <;>
      simp [stopAudio, hcur, AudioGraph.inv, h]
  · simp [stopAudio, hc, ha, AudioGraph.inv, List.erase_cons]

theorem runAudio_inv (es : List AudioEvent) (g : AudioGraph) (h : g.inv) :
    (runAudio g es).inv := by
  induction es generalizing g with
  | nil => exact h
  | cons e es ih =>
      cases e with
      | play => exact ih _ (playAudio_inv g h).1
      | stop => exact ih _ (stopAudio_inv g h).1

/-- C6: at most one source node is ever active — after any sequence of
playback operations from the initial graph, at most one started node is
not stopped, and `playAudio` always stops the referenced node before
starting a new one (so right after it exactly the new node is active). -/
theorem at_most_one_active_source (es : List AudioEvent) :
    (runAudio AudioGraph.init es).active.length ≤ 1 ∧
    (playAudio (runAudio AudioGraph.init es)).active.length = 1 := by
  have hinv : (runAudio AudioGraph.init es).inv :=
    runAudio_inv es AudioGraph.init (Or.inl rfl)
  constructor
  · rcases hinv with h | ⟨id, ha, _⟩
    · simp [h]
    · simp [ha]
  · exact (playAudio_inv _ hinv).2

/-- A concrete idle App state used to exercise the handlers. -/
def sampleState : AppState :=
  { text := "hello".data, selectedVoiceId := "v_mike", isLoading := false,
    isPlaying := false, previewVoiceId := none, audioBuffer := none,
    downloadUrl := none, alerts := [], consoleErrors := 0 }

/-- C2 is false as stated: a failing preview raises an error (here the
request itself fails) that the UI catches, but no alert dialog is shown —
`handlePreview` only logs to the console and clears the pending
preview. -/
theorem preview_failure_no_alert :
    generateSpeech "Hello, I am v_jason.".data "Puck" "key"
        (.requestFailed "network down") = .error "network down" ∧
    (handlePreview ⟨"v_jason", "Puck"⟩ "key" (.requestFailed "network down")
        sampleState).alerts = [] := by
  constructor
  · rfl
  · rfl

/-- C2 (amended): whenever a generation or preview action fails (missing
API key, a response with no audio data, or a failed request),
`generateSpeech` raises a single error; the generation UI catches it and
reports it via a blocking alert dialog, while the preview UI catches it,
logs it to the console, and clears the pending preview without an
alert. -/
theorem error_reporting_spec (s sp : AppState) (voice opt : VoicePersona)
    (apiKey e : String) (outcome : ApiOutcome)
    (hfail : apiKey = "" ∨ outcome = .requestFailed e ∨
      outcome = .responded none)
    (htrim : ¬jsTrim s.text = []) (hlen : ¬s.text.length > MAX_CHARS)
    (hfind : VOICE_OPTIONS.find? (fun v => v.id == s.selectedVoiceId) =
      some opt)
    (hprev : sp.previewVoiceId = none) :
    (∃ msg, ∀ (t : List Char) (v : String),
        generateSpeech t v apiKey outcome = .error msg) ∧
    (handleGenerate apiKey outcome s).alerts =
      s.alerts ++ ["Generation failed. Please try again."] ∧
    (handlePreview voice apiKey outcome sp).alerts = sp.alerts ∧
    (handlePreview voice apiKey outcome sp).previewVoiceId = none ∧
    (handlePreview voice apiKey outcome sp).consoleErrors =
      sp.consoleErrors + 1 := by
  obtain ⟨msg, hmsg⟩ : ∃ msg, ∀ (t : List Char) (v : String),
      generateSpeech t v apiKey outcome = .error msg := by
    by_cases hk : apiKey = ""
    · exact ⟨"API Key is missing.", fun t v => by simp [generateSpeech, hk]⟩
    · rcases hfail with h | h | h
      · exact absurd h hk
      · exact ⟨e, fun t v => by simp [generateSpeech, hk, h]⟩
      · exact ⟨"No audio data returned from Gemini.", fun t v => by
          simp [generateSpeech, hk, h]⟩
  refine ⟨⟨msg, hmsg⟩, ?_, ?_, ?_, ?_⟩
  · simp [handleGenerate, htrim, hlen, hfind, hmsg, stopAudioState]
  · simp [handlePreview, hprev, hmsg, stopAudioState]
  · simp [handlePreview, hprev, hmsg, stopAudioState]
  · simp [handlePreview, hprev, hmsg, stopAudioState]

/-- The amended C2 exercised with a missing API key against the concrete
idle state. -/
theorem error_reporting_spec_witness :
    (∃ msg, ∀ (t : List Char) (v : String),
        generateSpeech t v "" (.responded none) = .error msg) ∧
    (handleGenerate "" (.responded none) sampleState).alerts =
      sampleState.alerts ++ ["Generation failed. Please try again."] ∧
    (handlePreview ⟨"v_jason", "Puck"⟩ "" (.responded none)
        sampleState).alerts = sampleState.alerts ∧
    (handlePreview ⟨"v_jason", "Puck"⟩ "" (.responded none)
        sampleState).previewVoiceId = none ∧
    (handlePreview ⟨"v_jason", "Puck"⟩ "" (.responded none)
        sampleState).consoleErrors = sampleState.consoleErrors + 1 :=
  error_reporting_spec sampleState sampleState ⟨"v_jason", "Puck"⟩
    ⟨"v_mike", "Charon"⟩ "" "x" (.responded none) (Or.inl rfl)
    (by decide) (by decide) (by decide) rfl

/-- C9: `handleGenerate` refuses input at the boundary: blank
(whitespace-only) text returns with the state unchanged and no alert; text
longer than 5000 characters alerts and returns with every other field —
audio buffer, download URL, loading flag — unchanged. -/
theorem handleGenerate_boundary (apiKey : String) (outcome : ApiOutcome)
    (s : AppState) :
    (jsTrim s.text = [] → handleGenerate apiKey outcome s = s) ∧
    (jsTrim s.text ≠ [] → s.text.length > MAX_CHARS →
      handleGenerate apiKey outcome s =
        { s with alerts := s.alerts ++
            ["Character limit exceeded. Please reduce to 5000 characters."]
        }) := by
  constructor
  · intro h
    simp [handleGenerate, h]
  · intro h1 h2
    simp [handleGenerate, h1, h2]

theorem jsTrim_replicate_a (n : Nat) :
    jsTrim (List.replicate (n + 1) 'a') = List.replicate (n + 1) 'a' := by
  have hdw : List.dropWhile Char.isWhitespace (List.replicate (n + 1) 'a') =
      List.replicate (n + 1) 'a' := by
    rw [List.replicate_succ, List.dropWhile_cons]
    simp [show Char.isWhitespace 'a' = false from rfl]
  unfold jsTrim
  rw [hdw, List.reverse_replicate, hdw, List.reverse_replicate]

/-- C9 exercised on a whitespace-only text and on a 5001-character
text. -/
theorem handleGenerate_boundary_witness :
    handleGenerate "k" (.responded none)
      { sampleState with text := "  \t ".data } =
      { sampleState with text := "  \t ".data } ∧
    handleGenerate "k" (.responded none)
      { sampleState with text := List.replicate 5001 'a' } =
      { sampleState with
          text := (List.replicate 5001 'a')
          alerts := sampleState.alerts ++
            ["Character limit exceeded. Please reduce to 5000 characters."]
      } :=
  ⟨(handleGenerate_boundary "k" (.responded none)
      { sampleState with text := "  \t ".data }).1 (by decide),
   (handleGenerate_boundary "k" (.responded none)
      { sampleState with text := List.replicate 5001 'a' }).2
     (by
        show jsTrim (List.replicate 5001 'a') ≠ []
        rw [show (5001 : Nat) = 5000 + 1 from rfl, jsTrim_replicate_a]
        exact List.ne_nil_of_length_pos
          (by rw [List.length_replicate]; omega))
     (by
        show (List.replicate 5001 'a').length > MAX_CHARS
        rw [List.length_replicate]
        decide)⟩

/-- C10: a failed generation does not preserve the previous result — for
valid text, whenever the speech call fails, `handleGenerate` ends with no
audio buffer, no download URL, the loading flag off and playback
stopped. -/
theorem handleGenerate_failure_clears (apiKey : String) (outcome : ApiOutcome)
    (s : AppState) (opt : VoicePersona) (e : String)
    (htrim : jsTrim s.text ≠ []) (hlen : ¬s.text.length > MAX_CHARS)
    (hfind : VOICE_OPTIONS.find? (fun v => v.id == s.selectedVoiceId) =
      some opt)
    (herr : generateSpeech s.text opt.apiVoice apiKey outcome = .error e) :
    (handleGenerate apiKey outcome s).audioBuffer = none ∧
    (handleGenerate apiKey outcome s).downloadUrl = none ∧
    (handleGenerate apiKey outcome s).isLoading = false ∧
    (handleGenerate apiKey outcome s).isPlaying = false := by
  simp [handleGenerate, htrim, hlen, hfind, herr, stopAudioState]

/-- C10 exercised with a previous result present: after the failure both
the buffer and the download URL are gone. -/
theorem handleGenerate_failure_clears_witness :
    (handleGenerate "" (.responded none)
      { sampleState with audioBuffer := some ⟨1, 24000, 0, [[]]⟩,
                         downloadUrl := some [1, 2, 3] }).audioBuffer =
      none ∧
    (handleGenerate "" (.responded none)
      { sampleState with audioBuffer := some ⟨1, 24000, 0, [[]]⟩,
                         downloadUrl := some [1, 2, 3] }).downloadUrl =
      none ∧
    (handleGenerate "" (.responded none)
      { sampleState with audioBuffer := some ⟨1, 24000, 0, [[]]⟩,
                         downloadUrl := some [1, 2, 3] }).isLoading =
      false ∧
    (handleGenerate "" (.responded none)
      { sampleState with audioBuffer := some ⟨1, 24000, 0, [[]]⟩,
                         downloadUrl := some [1, 2, 3] }).isPlaying =
      false :=
  handleGenerate_failure_clears "" (.responded none)
    { sampleState with audioBuffer := some ⟨1, 24000, 0, [[]]⟩,
                       downloadUrl := some [1, 2, 3] }
    ⟨"v_mike", "Charon"⟩ "API Key is missing." (by decide) (by decide)
    (by decide) rfl

theorem decodeAudioData_wf (raw : List Nat) (sampleRate numChannels : Nat) :
    (decodeAudioData raw sampleRate numChannels).wf := by
  constructor
  · simp [decodeAudioData]
  · intro ch hch
    simp only [decodeAudioData, List.mem_map] at hch
    obtain ⟨i, _, hi⟩ := hch
    simp [decodeAudioData, ← hi]

/-- C7: the downloadable output is always a RIFF/WAVE PCM16 container,
mono at 24000 Hz — a successful generation decodes the raw model audio at
24 kHz mono, installs that buffer, and the download URL holds exactly its
WAV serialization, whose header declares format tag 1, one channel,
24000 Hz and 16 bits. -/
theorem download_is_mono_24k (apiKey : String) (raw : List Nat)
    (s : AppState) (opt : VoicePersona) (hk : apiKey ≠ "")
    (htrim : jsTrim s.text ≠ []) (hlen : ¬s.text.length > MAX_CHARS)
    (hfind : VOICE_OPTIONS.find? (fun v => v.id == s.selectedVoiceId) =
      some opt) :
    ∃ b : AudioBuffer,
      generateSpeech s.text opt.apiVoice apiKey (.responded (some raw)) =
        .ok b ∧
      b.numberOfChannels = 1 ∧ b.sampleRate = 24000 ∧
      (handleGenerate apiKey (.responded (some raw)) s).audioBuffer =
        some b ∧
      (handleGenerate apiKey (.responded (some raw)) s).downloadUrl =
        some (audioBufferToWav b) ∧
      readU16le (audioBufferToWav b) 20 = 1 ∧
      readU16le (audioBufferToWav b) 22 = 1 ∧
      readU32le (audioBufferToWav b) 24 = 24000 ∧
      readU16le (audioBufferToWav b) 34 = 16 ∧
      (audioBufferToWav b).length = 44 + b.frameCount * 1 * 2 := by
  have hok : generateSpeech s.text opt.apiVoice apiKey
      (.responded (some raw)) = .ok (decodeAudioData raw 24000 1) := by
    simp [generateSpeech, hk]
  have hfields := wav_bytes_spec (decodeAudioData raw 24000 1)
    (decodeAudioData_wf raw 24000 1)
    (by show (1 : Nat) < 65536; decide)
    (by show (24000 : Nat) < 4294967296; decide)
  refine ⟨decodeAudioData raw 24000 1, hok, rfl, rfl, ?_, ?_, ?_, ?_, ?_,
    ?_, ?_⟩
  · simp [handleGenerate, htrim, hlen, hfind, hok, stopAudioState]
  · simp [handleGenerate, htrim, hlen, hfind, hok, stopAudioState]
  · exact hfields.2.1
  · exact hfields.2.2.1
  · exact hfields.2.2.2.1
  · exact hfields.2.2.2.2
  · exact hfields.1

/-- C7 exercised with a 4-byte raw payload (2 mono PCM16 frames): the
emitted download is a 48-byte mono 24 kHz WAV. -/
theorem download_is_mono_24k_witness :
    ∃ b : AudioBuffer,
      generateSpeech sampleState.text "Charon" "k"
          (.responded (some [1, 2, 3, 4])) = .ok b ∧
      b.numberOfChannels = 1 ∧ b.sampleRate = 24000 ∧
      (handleGenerate "k" (.responded (some [1, 2, 3, 4]))
          sampleState).audioBuffer = some b ∧
      (handleGenerate "k" (.responded (some [1, 2, 3, 4]))
          sampleState).downloadUrl = some (audioBufferToWav b) ∧
      readU16le (audioBufferToWav b) 20 = 1 ∧
      readU16le (audioBufferToWav b) 22 = 1 ∧
      readU32le (audioBufferToWav b) 24 = 24000 ∧
      readU16le (audioBufferToWav b) 34 = 16 ∧
      (audioBufferToWav b).length = 44 + b.frameCount * 1 * 2 :=
  download_is_mono_24k "k" [1, 2, 3, 4] sampleState ⟨"v_mike", "Charon"⟩
    (by decide) (by decide) (by decide) (by decide)

end FastXVoice
